import Mathlib

/-!
Verification development for the StockDataMiner acquisition/caching/persistence
engine.  The definitions below are a shallow embedding of the Python source:

* `DatabaseManager.*`    embeds `src/database.py` (SQLite backend),
* `MongoDBManager.*`     embeds `src/mongodb_manager.py` (MongoDB backend),
* `StockDataFetcher.*`   embeds `src/stock_data.py` (orchestrator + batch).

Modelling conventions:

* Timestamp strings are modelled abstractly by `TStamp`: `TStamp.time m` stands
  for a string that `pd.to_datetime` parses to the instant `m`, in integer
  microseconds since the epoch (`datetime`/`pd.Timestamp` carry microsecond
  resolution, so no finer distinction exists in the source), and `TStamp.raw s`
  stands for a string on which parsing raises.  `datetime.now().isoformat()`
  always produces a parsable string, so a stored `fetch_timestamp` is
  `TStamp.time now`.  The freshness comparison
  `(now - fetch_time).total_seconds() / 3600 <= max_age_hours` is embedded in
  exact arithmetic with the denominator cleared:
  `now - t <= max_age_hours * 3600000000` (equivalent over the reals since
  `3600000000 > 0`).
* A pandas DataFrame is modelled by `Dataset`: an ordered list of named columns
  of ordered scalar cells, plus the three metadata attributes the engine reads
  from `DataFrame.attrs` (`fetch_timestamp`, `data_timestamp`, `source`).
  Bookkeeping attrs (`ticker`, `category`, `info_type`) are not consumed by any
  contract and are omitted.
* `pickle.dumps`/`zlib.compress` round-trip a Python object exactly, so a
  pickled+compressed blob is modelled by `Blob.pickled p` carrying the payload;
  `Blob.corrupt` stands for a stored blob on which `pickle.loads` (or
  `zlib.decompress`) raises.
* `DataFrame.to_json(orient="table", date_format="iso")` keeps cell values
  except that timestamps are emitted at the default `date_unit="ms"` (ISO
  strings with millisecond precision), so microsecond components are truncated;
  `pd.read_json(..., orient="table")` restores exactly the encoded values.
  `to_json` raises `ValueError` when column names are not unique
  ("DataFrame columns must be unique for orient='table'").
* Timestamp cells are `Cell.ts m` with `m : Nat` microseconds since the epoch.
* SQLite tables keyed by `(ticker_id, data_type_id)` with unique
  symbol/category/info-type reference rows are modelled as association lists
  keyed directly by the `(symbol, category, info_type)` triple; likewise the
  MongoDB collections (unique indexes on `symbol` and `(category, info_type)`).
  `INSERT OR REPLACE` / `update_one(..., upsert=True)` replace an existing
  entry in place and append a fresh entry at the end, preserving insertion
  order for the remaining documents.
-/

/-- A timestamp-valued string: `time m` parses (to `m` microseconds since the
epoch), `raw s` does not. -/
inductive TStamp where
  | time (micros : Int)
  | raw (s : String)
deriving DecidableEq, Repr

/-- Python truthiness of the stored timestamp value: only the empty string is falsy
(`None` is modelled by `Option.none` around `TStamp`). -/
def TStamp.truthy : TStamp → Bool
  | .time _ => true
  | .raw s => s ≠ ""

/-- A scalar cell value of a tabular dataset. -/
inductive Cell where
  | int (i : Int)
  | str (s : String)
  | ts (micros : Nat)
  | null
deriving DecidableEq, Repr

/-- A named column with its cells in row order. -/
structure Column where
  name : String
  cells : List Cell
deriving DecidableEq, Repr

/-- A pandas DataFrame: ordered named columns, rows in order, plus the three
metadata attributes the engine reads/writes through `DataFrame.attrs`. -/
structure Dataset where
  columns : List Column
  attrsFetchTimestamp : Option TStamp
  attrsDataTimestamp : Option TStamp
  attrsSource : Option String
deriving DecidableEq, Repr

/-- `DataFrame.empty`: true when any axis has length zero. -/
def Dataset.isEmpty (d : Dataset) : Bool :=
  d.columns.isEmpty || d.columns.all (fun c => c.cells.isEmpty)

/-- A Python value handed to a backend `store_data`: either a DataFrame or some
other (non-DataFrame) object. -/
inductive Payload where
  | df (d : Dataset)
  | other (tag : String)
deriving DecidableEq, Repr

/-- A stored SQLite blob: `pickle.dumps` + `zlib.compress` round-trip exactly,
so a well-formed blob carries its payload; `corrupt` is a blob on which
decompression/unpickling raises. -/
inductive Blob where
  | pickled (p : Payload)
  | corrupt (tag : String)
deriving DecidableEq, Repr

/-- `zlib.decompress` + `pickle.loads`, `none` when either raises. -/
def Blob.unpickle : Blob → Option Payload
  | .pickled p => some p
  | .corrupt _ => none

/-- Cell value as it survives `to_json(orient="table", date_format="iso")` with
the default `date_unit="ms"`: timestamps are truncated to whole milliseconds. -/
def jsonCell : Cell → Cell
  | .ts m => .ts (m / 1000 * 1000)
  | c => c

/-- Column image under the JSON table encoding. -/
def jsonColumn (c : Column) : Column :=
  { c with cells := c.cells.map jsonCell }

/-- `DataFrame.to_json(orient="table", date_format="iso")` followed by
`pd.read_json(orient="table")`: the content survives cell-wise via `jsonCell`
and `attrs` are not part of the JSON document. -/
def jsonTableEncode (d : Dataset) : Dataset :=
  { columns := d.columns.map jsonColumn
    attrsFetchTimestamp := none
    attrsDataTimestamp := none
    attrsSource := none }

/-- Whether a cell is unchanged by the millisecond truncation of the JSON encoding. -/
def Cell.msAligned : Cell → Bool
  | .ts m => m % 1000 == 0
  | _ => true

/-- The JSON string stored in a MongoDB document's `data` field: well-formed
table JSON carrying its dataset, or a corrupt string on which `pd.read_json`
raises. -/
inductive MJson where
  | table (d : Dataset)
  | corrupt (tag : String)
deriving DecidableEq, Repr

/-- `pd.read_json(..., orient="table")`, `none` when it raises. -/
def MJson.decode : MJson → Option Dataset
  | .table d => some d
  | .corrupt _ => none

/-- Dataset keys: `(symbol, category, info_type)`. -/
abbrev DKey := String × String × String

/-- Find the value stored under a key in an association list. -/
def assocFind {α : Type} : List (DKey × α) → DKey → Option α
  | [], _ => none
  | (k', v) :: t, k => if k' = k then some v else assocFind t k

/-- Upsert: replace in place when the key is present, append otherwise
(`INSERT OR REPLACE` on a `UNIQUE` key / `update_one(..., upsert=True)`). -/
def assocUpsert {α : Type} : List (DKey × α) → DKey → α → List (DKey × α)
  | [], k, v => [(k, v)]
  | (k', v') :: t, k, v =>
      if k' = k then (k, v) :: t else (k', v') :: assocUpsert t k v

/-- Remove the entry stored under a key (no-op when absent). -/
def assocErase {α : Type} (l : List (DKey × α)) (k : DKey) : List (DKey × α) :=
  l.filter (fun kv => kv.1 ≠ k)

/-- One row of the SQLite `stock_data` table (the joined view keyed by
symbol/category/info-type; `compressed = is_pickled = 1` always, as written by
`store_data`). -/
structure SqliteRow where
  blob : Blob
  fetchTs : TStamp
  dataTs : Option TStamp
  source : Option String
deriving DecidableEq, Repr

/-- The SQLite database state relevant to the storage contract: the
`stock_data` rows (keyed by symbol/category/info-type through the reference
tables) and the `tickers` registry symbols. -/
structure SqliteDB where
  rows : List (DKey × SqliteRow)
  tickers : List String
deriving DecidableEq, Repr

/-- The empty (freshly initialized) SQLite database. -/
def SqliteDB.empty : SqliteDB := ⟨[], []⟩

namespace DatabaseManager

/-- `DatabaseManager.store_data` (src/database.py:276): opens a connection and
calls `get_or_create_ticker_id` (database.py:282) and `get_data_type_id`
(database.py:285).  Both helpers end in `finally: self.close()`
(database.py:230-231, 273-274), and `close` sets `self.cursor = None`
(database.py:31-36), so the `INSERT OR REPLACE` at database.py:303 raises
`AttributeError` on EVERY call; the `except` branch catches it, rolls back the
(already superseded) connection and returns `False`.  Net effect, modelled
here: the ticker-registry entry committed inside `get_or_create_ticker_id`
persists (the data-type registration also persists, but no read path can
observe it without a `stock_data` row, so this state does not track it), no
`stock_data` row is ever written — the payload is pickled but discarded with
the rollback — and the function always returns `False`. -/
def store_data (db : SqliteDB) (now : Int) (ticker category info_type : String)
    (data : Payload) (data_timestamp : Option TStamp) (source : Option String) :
    SqliteDB × Bool :=
  let tickers' := if db.tickers.contains ticker then db.tickers else db.tickers ++ [ticker]
  ({ db with tickers := tickers' }, false)

/-- `DatabaseManager.get_stored_data` (src/database.py:318): `None` when the key
is absent; decompress+unpickle, where any exception is caught and also yields
`None`; if the payload is a DataFrame, overwrite `attrs['fetch_timestamp']`
and re-attach `data_timestamp`/`source` only when the stored values are truthy
(the unpickled frame keeps its pickled attrs otherwise). -/
def get_stored_data (db : SqliteDB) (ticker category info_type : String) : Option Payload :=
  match assocFind db.rows (ticker, category, info_type) with
  | none => none
  | some row =>
      match row.blob.unpickle with
      | none => none
      | some p =>
          match p with
          | .df d =>
              some (.df
                { d with
                  attrsFetchTimestamp := some row.fetchTs
                  attrsDataTimestamp :=
                    match row.dataTs with
                    | some v => if v.truthy then some v else d.attrsDataTimestamp
                    | none => d.attrsDataTimestamp
                  attrsSource :=
                    match row.source with
                    | some s => if s ≠ "" then some s else d.attrsSource
                    | none => d.attrsSource })
          | .other t => some (.other t)

/-- `DatabaseManager.delete_data` (src/database.py:413): deletes the matching
row (matching nothing when the key is absent) and returns `True`
unconditionally. -/
def delete_data (db : SqliteDB) (ticker category info_type : String) : SqliteDB × Bool :=
  ({ db with rows := assocErase db.rows (ticker, category, info_type) }, true)

end DatabaseManager

/-- One entry of `DatabaseManager.get_available_data`'s result: the SELECTed
columns `symbol, category, info_type, fetch_timestamp, data_timestamp, source`. -/
structure CatalogRow where
  symbol : String
  category : String
  infoType : String
  fetchTs : TStamp
  dataTs : Option TStamp
  source : Option String
deriving DecidableEq, Repr

/-- Sort key of the SQL `ORDER BY t.symbol, dc.name, dt.name`. -/
def catKey (r : CatalogRow) : String ×ₗ String ×ₗ String :=
  toLex (r.symbol, toLex (r.category, r.infoType))

/-- The catalog ordering: lexicographic on (symbol, category, info_type). -/
def catalogLe (a b : CatalogRow) : Prop := catKey a ≤ catKey b

instance : DecidableRel catalogLe :=
  fun a b => inferInstanceAs (Decidable (catKey a ≤ catKey b))

instance : IsTotal CatalogRow catalogLe := ⟨fun a b => le_total (catKey a) (catKey b)⟩

instance : IsTrans CatalogRow catalogLe := ⟨fun _ _ _ hab hbc => le_trans hab hbc⟩

/-- `DatabaseManager.get_available_data` (src/database.py:371): the joined rows
with `ORDER BY t.symbol, dc.name, dt.name` (ascending). -/
def DatabaseManager.get_available_data (db : SqliteDB) : List CatalogRow :=
  List.insertionSort catalogLe
    (db.rows.map fun kv =>
      ⟨kv.1.1, kv.1.2.1, kv.1.2.2, kv.2.fetchTs, kv.2.dataTs, kv.2.source⟩)

/-- A MongoDB ticker-registry document (symbol unique by index). -/
structure TickerDoc where
  symbol : String
  firstFetched : Int
  lastFetched : Int
deriving DecidableEq, Repr

/-- A MongoDB `stock_data` document (minus its join keys, which the embedding
carries as the association-list key). -/
structure MDoc where
  dataJson : MJson
  fetchTs : TStamp
  dataTs : Option TStamp
  source : Option String
deriving DecidableEq, Repr

/-- The MongoDB database state: the `tickers` and `data_types` collections and
the `stock_data` documents in insertion order. -/
structure MongoDB where
  tickers : List TickerDoc
  dataTypes : List (String × String)
  docs : List (DKey × MDoc)
deriving DecidableEq, Repr

/-- The empty MongoDB database. -/
def MongoDB.empty : MongoDB := ⟨[], [], []⟩

/-- Whether a symbol has a ticker document (`tickers.find_one({"symbol": ...})`). -/
def MongoDB.hasTicker (db : MongoDB) (symbol : String) : Bool :=
  db.tickers.any (fun t => t.symbol = symbol)

namespace MongoDBManager

/-- `MongoDBManager.get_or_create_ticker_id` (src/mongodb_manager.py:86):
update `last_fetched` when the symbol exists, insert a fresh document
otherwise. -/
def get_or_create_ticker_id (db : MongoDB) (now : Int) (symbol : String) : MongoDB :=
  if db.hasTicker symbol then
    { db with
      tickers := db.tickers.map fun t =>
        if t.symbol = symbol then { t with lastFetched := now } else t }
  else
    { db with tickers := db.tickers ++ [⟨symbol, now, now⟩] }

/-- `MongoDBManager.get_data_type_id` (src/mongodb_manager.py:118): insert the
`(category, info_type)` pair on first use. -/
def get_data_type_id (db : MongoDB) (category info_type : String) : MongoDB :=
  if (category, info_type) ∈ db.dataTypes then db
  else { db with dataTypes := db.dataTypes ++ [(category, info_type)] }

/-- `MongoDBManager.store_data` (src/mongodb_manager.py:144): rejects any
non-DataFrame payload up front (`return False` before touching the database);
otherwise registers ticker and data type, serializes via
`to_json(orient="table", date_format="iso")` — which raises (caught, `False`)
when column names are not unique, after the registry writes — and upserts the
document with `fetch_timestamp = datetime.now()`. -/
def store_data (db : MongoDB) (now : Int) (ticker category info_type : String)
    (data : Payload) (data_timestamp : Option TStamp) (source : Option String) :
    MongoDB × Bool :=
  match data with
  | .other _ => (db, false)
  | .df d =>
      let db1 := get_or_create_ticker_id db now ticker
      let db2 := get_data_type_id db1 category info_type
      if (d.columns.map Column.name).Nodup then
        let doc : MDoc := ⟨.table (jsonTableEncode d), .time now, data_timestamp, source⟩
        ({ db2 with docs := assocUpsert db2.docs (ticker, category, info_type) doc }, true)
      else
        (db2, false)

/-- `MongoDBManager.get_stored_data` (src/mongodb_manager.py:192): `None` when
ticker, data type, or document is absent; `pd.read_json` failure is caught and
also yields `None`; otherwise all three metadata fields are attached as attrs
(with `result.get(...)`, i.e. even when the stored value is `None`). -/
def get_stored_data (db : MongoDB) (ticker category info_type : String) : Option Dataset :=
  if db.hasTicker ticker then
    if (category, info_type) ∈ db.dataTypes then
      match assocFind db.docs (ticker, category, info_type) with
      | none => none
      | some doc =>
          match doc.dataJson.decode with
          | none => none
          | some d =>
              some { d with
                attrsFetchTimestamp := some doc.fetchTs
                attrsDataTimestamp := doc.dataTs
                attrsSource := doc.source }
    else none
  else none

/-- `MongoDBManager.delete_data` (src/mongodb_manager.py:295): `False` when the
ticker or data-type lookup fails; otherwise `delete_one` and return
`deleted_count > 0`. -/
def delete_data (db : MongoDB) (ticker category info_type : String) : MongoDB × Bool :=
  if db.hasTicker ticker then
    if (category, info_type) ∈ db.dataTypes then
      let existed := (assocFind db.docs (ticker, category, info_type)).isSome
      ({ db with docs := assocErase db.docs (ticker, category, info_type) }, existed)
    else (db, false)
  else (db, false)

/-- `MongoDBManager.get_available_data` (src/mongodb_manager.py:238): the
aggregation pipeline `$lookup`s ticker and data-type names, `$unwind` drops
documents with no matching reference document, and — with no `$sort` stage —
emits 4-tuples `(symbol, category, info_type, fetch_timestamp)` in collection
(insertion) order. -/
def get_available_data (db : MongoDB) : List (String × String × String × TStamp) :=
  db.docs.filterMap fun kv =>
    if db.hasTicker kv.1.1 ∧ (kv.1.2.1, kv.1.2.2) ∈ db.dataTypes then
      some (kv.1.1, kv.1.2.1, kv.1.2.2, kv.2.fetchTs)
    else none

end MongoDBManager

/-- The provider adapter boundary: the yfinance-backed dispatch
(`_get_general_info` / `_get_historical_data` / `_get_financial_statements` /
`_get_analysis_and_holdings`), which either returns a DataFrame (possibly
empty) or raises. -/
abbrev Adapter := String → String → String → Except String Dataset

/-- The category-specific best-effort metadata heuristics of
`StockDataFetcher.get_data` / `_enhance_data_metadata`: they read the data and
write only the `data_timestamp` / `source` attrs (the spec treats them as
best-effort plumbing, so they are parameters of the embedding). -/
structure Heur where
  extractDataTs : String → String → Dataset → Option TStamp
  enhanceSource : String → String → Dataset → Option String → Option String

/-- Trivial heuristics: no `data_timestamp` extracted, `source` left unchanged. -/
def Heur.trivialH : Heur := ⟨fun _ _ _ => none, fun _ _ _ s => s⟩

/-- The `StockDataFetcher` state: the optional `db_manager` (the SQLite-backed
`DatabaseManager` used by the batch path) and the in-session
`_fetched_data_cache` key set. -/
structure Fetcher where
  db : Option SqliteDB
  sessionCache : List String
deriving DecidableEq, Repr

namespace StockDataFetcher

/-- The session-cache key `f"{ticker}_{category}_{info_type}"`. -/
def cacheKey (symbol category info_type : String) : String :=
  symbol ++ "_" ++ category ++ "_" ++ info_type

/-- `StockDataFetcher.data_exists` (src/stock_data.py:38): `True` immediately
when the key is in the session cache; `False` without a database manager;
otherwise look the row up (assuming an initialized schema), parse its
`fetch_timestamp` with `pd.to_datetime` — an unparsable value returns `False`
("assume data exists but is old") — and report
`(now - fetch_time).total_seconds() / 3600 <= max_age_hours`. -/
def data_exists (f : Fetcher) (now : Int) (symbol category info_type : String)
    (max_age_hours : Int) : Bool :=
  if f.sessionCache.contains (cacheKey symbol category info_type) then true
  else
    match f.db with
    | none => false
    | some db =>
        match assocFind db.rows (symbol, category, info_type) with
        | none => false
        | some row =>
            match row.fetchTs with
            | .time t => decide (now - t ≤ max_age_hours * 3600000000)
            | .raw _ => false

/-- The metadata attachment of `StockDataFetcher.get_data` on a non-empty fetch
(src/stock_data.py:180-236): set `attrs['fetch_timestamp']`, default the
`source` to `'Yahoo Finance'` when absent, run the category-specific
`data_timestamp` extraction only when the attr is absent, then
`_enhance_data_metadata` on the source. -/
def attachMeta (hx : Heur) (now : Int) (category info_type : String) (d : Dataset) : Dataset :=
  let d1 := { d with attrsFetchTimestamp := some (.time now) }
  let d2 := { d1 with attrsSource := some (d1.attrsSource.getD "Yahoo Finance") }
  let d3 :=
    match d2.attrsDataTimestamp with
    | some _ => d2
    | none => { d2 with attrsDataTimestamp := hx.extractDataTs category info_type d2 }
  { d3 with attrsSource := hx.enhanceSource category info_type d3 d3.attrsSource }

/-- The upstream-fetch path of `StockDataFetcher.get_data`
(src/stock_data.py:159-240): call the adapter; a raised error propagates
(re-wrapped); an empty result is returned as-is without metadata; a non-empty
result gets metadata attached. -/
def fetchFresh (hx : Heur) (adapter : Adapter) (now : Int)
    (symbol category info_type : String) : Except String Dataset :=
  match adapter symbol category info_type with
  | .error e => .error e
  | .ok d => if d.isEmpty then .ok d else .ok (attachMeta hx now category info_type d)

/-- `StockDataFetcher.get_data` (src/stock_data.py:131): unless
`force_refresh`, and explicitly excepting `info_type == "News"`, consult
`data_exists` (default 24h age) and return the stored copy when it is a
non-empty DataFrame, recording the key in the session cache; a stored
non-DataFrame raises `AttributeError` on `.empty` (outside the `try`);
otherwise fall through to the upstream fetch, which does not store. -/
def get_data (hx : Heur) (adapter : Adapter) (now : Int) (f : Fetcher)
    (symbol category info_type : String) (force_refresh : Bool) :
    Except String Dataset × Fetcher :=
  if !force_refresh && info_type != "News" && data_exists f now symbol category info_type 24 then
    match f.db with
    | some db =>
        match DatabaseManager.get_stored_data db symbol category info_type with
        | some (.df d) =>
            if !d.isEmpty then
              (.ok d, { f with sessionCache := f.sessionCache ++ [cacheKey symbol category info_type] })
            else (fetchFresh hx adapter now symbol category info_type, f)
        | some (.other _) => (.error "AttributeError: object has no attribute empty", f)
        | none => (fetchFresh hx adapter now symbol category info_type, f)
    | none => (fetchFresh hx adapter now symbol category info_type, f)
  else (fetchFresh hx adapter now symbol category info_type, f)

/-- One invocation of the progress callback of `batch_process_tickers`:
`callback(ticker, category, info_type, success, from_cache=..., error=...)`. -/
structure CallbackEvent where
  symbol : String
  category : String
  infoType : String
  success : Bool
  fromCache : Bool
  error : Option String
deriving DecidableEq, Repr

/-- The body of the per-info-type loop of
`StockDataFetcher.batch_process_tickers` (src/stock_data.py:706-742), including
its `try`/`except`: serve a non-empty stored DataFrame when `data_exists`
(no `News` exception on this path) with a `from_cache` callback; a stored
non-DataFrame raises on `.empty` and is caught as a failure; otherwise call
`get_data` — adapter errors are caught and reported as failures; a non-empty
fetch is passed to `store_data` (with the attrs-derived
`data_timestamp`/`source`; the Boolean result is discarded, and on the SQLite
backend the row write in fact always fails — see `DatabaseManager.store_data`),
the key is recorded in the session cache, and success is reported; an empty
fetch is silently skipped (no store, no callback). -/
def batchStep (hx : Heur) (adapter : Adapter) (now : Int) (force_refresh : Bool)
    (f : Fetcher) (symbol category info_type : String) :
    Fetcher × Option Dataset × List CallbackEvent :=
  let cached : Option (Sum Dataset String) :=
    if !force_refresh && data_exists f now symbol category info_type 24 then
      match f.db with
      | some db =>
          match DatabaseManager.get_stored_data db symbol category info_type with
          | some (.df d) => if !d.isEmpty then some (.inl d) else none
          | some (.other _) => some (.inr "AttributeError: object has no attribute empty")
          | none => none
      | none => none
    else none
  match cached with
  | some (.inl d) => (f, some d, [⟨symbol, category, info_type, true, true, none⟩])
  | some (.inr e) => (f, none, [⟨symbol, category, info_type, false, false, some e⟩])
  | none =>
      match get_data hx adapter now f symbol category info_type force_refresh with
      | (.error e, f') => (f', none, [⟨symbol, category, info_type, false, false, some e⟩])
      | (.ok d, f') =>
          if !d.isEmpty then
            let f2 :=
              match f'.db with
              | some db =>
                  let src := some (d.attrsSource.getD "Yahoo Finance")
                  { f' with
                    db := some (DatabaseManager.store_data db now symbol category info_type
                        (.df d) d.attrsDataTimestamp src).1 }
              | none => f'
            let f3 := { f2 with
              sessionCache := f2.sessionCache ++ [cacheKey symbol category info_type] }
            (f3, some d, [⟨symbol, category, info_type, true, false, none⟩])
          else (f', none, [])

/-- The info-type loop of `batch_process_tickers` for one category, collecting
`category_data` in taxonomy order. -/
def processInfoTypes (hx : Heur) (adapter : Adapter) (now : Int) (force_refresh : Bool)
    (symbol category : String) :
    Fetcher → List String → Fetcher × List (String × Dataset) × List CallbackEvent
  | f, [] => (f, [], [])
  | f, info_type :: rest =>
      let (f1, md, ev) := batchStep hx adapter now force_refresh f symbol category info_type
      let (f2, tail, evs) := processInfoTypes hx adapter now force_refresh symbol category f1 rest
      (f2, (match md with | some d => [(info_type, d)] | none => []) ++ tail, ev ++ evs)

/-- The category loop of `batch_process_tickers` for one ticker:
`if category_data: ticker_data[category] = category_data`. -/
def processCategories (hx : Heur) (adapter : Adapter) (now : Int) (force_refresh : Bool)
    (symbol : String) :
    Fetcher → List (String × List String) →
      Fetcher × List (String × List (String × Dataset)) × List CallbackEvent
  | f, [] => (f, [], [])
  | f, (category, infoTypes) :: rest =>
      let (f1, catData, ev) := processInfoTypes hx adapter now force_refresh symbol category f infoTypes
      let (f2, tail, evs) := processCategories hx adapter now force_refresh symbol f1 rest
      (f2, (if catData.isEmpty then [] else [(category, catData)]) ++ tail, ev ++ evs)

/-- The ticker loop of `batch_process_tickers`:
`if ticker_data: results[ticker] = ticker_data`. -/
def processTickers (hx : Heur) (adapter : Adapter) (now : Int) (force_refresh : Bool)
    (taxonomy : List (String × List String)) :
    Fetcher → List String →
      Fetcher × List (String × List (String × List (String × Dataset))) × List CallbackEvent
  | f, [] => (f, [], [])
  | f, symbol :: rest =>
      let (f1, tickerData, ev) := processCategories hx adapter now force_refresh symbol f taxonomy
      let (f2, tail, evs) := processTickers hx adapter now force_refresh taxonomy f1 rest
      (f2, (if tickerData.isEmpty then [] else [(symbol, tickerData)]) ++ tail, ev ++ evs)

/-- The hard-coded `categories_to_process` taxonomy of `batch_process_tickers`
(src/stock_data.py:685-695), in Python dict insertion order. -/
def batchCategories : List (String × List String) :=
  [("General Information", ["Basic Info", "Fast Info", "News"]),
   ("Historical Data", ["Price History", "Dividends", "Splits", "Actions"]),
   ("Financial Statements", ["Income Statement", "Balance Sheet", "Cash Flow", "Earnings"]),
   ("Analysis & Holdings",
     ["Recommendations", "Analyst Price Targets", "Upgrades Downgrades",
      "Earnings Estimates", "Revenue Estimates", "EPS Trend", "Growth Estimates",
      "Major Holders", "Institutional Holders", "Mutual Fund Holders",
      "Insider Transactions"])]

/-- `StockDataFetcher.batch_process_tickers` (src/stock_data.py:670): walk every
ticker through the full taxonomy, returning the final fetcher state, the nested
`ticker -> category -> info_type -> data` results and the callback log. -/
def batch_process_tickers (hx : Heur) (adapter : Adapter) (now : Int) (f : Fetcher)
    (ticker_symbols : List String) (force_refresh : Bool) :
    Fetcher × List (String × List (String × List (String × Dataset))) × List CallbackEvent :=
  processTickers hx adapter now force_refresh batchCategories f ticker_symbols

end StockDataFetcher

/-! Concrete fixtures used by the counterexample and witness theorems below. -/

/-- A one-cell news DataFrame. -/
def newsDS : Dataset := ⟨[⟨"title", [.str "headline"]⟩], none, none, none⟩

/-- A SQLite state holding a freshly stored News entry for AAPL
(fetch timestamp 99000µs, i.e. well within 24 hours of `now = 100000`). -/
def dbNews : SqliteDB :=
  ⟨[(("AAPL", "General Information", "News"),
     ⟨.pickled (.df newsDS), .time 99000, none, none⟩)], ["AAPL"]⟩

/-- An adapter whose every upstream call raises. -/
def adErr : Adapter := fun _ _ _ => .error "net down"

/-- An adapter returning a zero-row DataFrame for `(_, Historical Data,
Dividends)` and raising for every other key. -/
def adEmptyDividends : Adapter := fun _ c i =>
  if c == "Historical Data" && i == "Dividends" then .ok ⟨[], none, none, none⟩
  else .error "boom"

/-- An adapter returning one non-empty DataFrame for `(_, Historical Data,
Price History)` and raising for every other key. -/
def adOnePrice : Adapter := fun _ c i =>
  if c == "Historical Data" && i == "Price History" then
    .ok ⟨[⟨"Close", [.int 5]⟩], none, none, none⟩
  else .error "boom"

/-- A SQLite state whose single stored blob fails to deserialize. -/
def dbCorrupt : SqliteDB :=
  ⟨[(("AAPL", "Historical Data", "Dividends"), ⟨.corrupt "bad", .time 0, none, none⟩)], ["AAPL"]⟩

/-- A MongoDB state whose single stored document's JSON fails to parse. -/
def mdbCorrupt : MongoDB :=
  ⟨[⟨"AAPL", 0, 0⟩], [("Historical Data", "Dividends")],
   [(("AAPL", "Historical Data", "Dividends"), ⟨.corrupt "bad", .time 0, none, none⟩)]⟩

/-- A MongoDB state reached by storing one single-cell dataset. -/
def mdbOne : MongoDB :=
  (MongoDBManager.store_data MongoDB.empty 77 "AAPL" "Historical Data" "Dividends"
    (.df ⟨[⟨"x", [.int 1]⟩], none, none, none⟩) none none).1

/-- A MongoDB state reached by storing under symbol "B" first, then "A". -/
def mdbBA : MongoDB :=
  (MongoDBManager.store_data
    (MongoDBManager.store_data MongoDB.empty 10 "B" "Historical Data" "Dividends"
      (.df ⟨[⟨"x", [.int 1]⟩], none, none, none⟩) none none).1
    11 "A" "Historical Data" "Dividends"
    (.df ⟨[⟨"x", [.int 2]⟩], none, none, none⟩) none none).1

/-- A dataset with a timestamp cell that is not millisecond-aligned (1500µs). -/
def dsMicro : Dataset := ⟨[⟨"Date", [.ts 1500]⟩], none, none, none⟩

/-- A minimal one-cell dataset used for ordering scenarios. -/
def dfX : Dataset := ⟨[⟨"x", [.int 1]⟩], none, none, none⟩

/-! General lemmas about the association-list operations and the MongoDB
registry helpers, shared by several claims. -/

theorem assocFind_upsert_self {α : Type} (l : List (DKey × α)) (k : DKey) (v : α) :
    assocFind (assocUpsert l k v) k = some v := by
  induction l with
  | nil => simp [assocUpsert, assocFind]
  | cons hd t ih =>
      by_cases h : hd.1 = k
      · simp [assocUpsert, assocFind, h]
      · simp [assocUpsert, assocFind, h, ih]

theorem assocFind_erase_self {α : Type} (l : List (DKey × α)) (k : DKey) :
    assocFind (assocErase l k) k = none := by
  induction l with
  | nil => rfl
  | cons hd t ih =>
      by_cases h : hd.1 = k
      · simpa [assocErase, assocFind, h] using ih
      · simpa [assocErase, assocFind, h] using ih

theorem assocErase_idem {α : Type} (l : List (DKey × α)) (k : DKey) :
    assocErase (assocErase l k) k = assocErase l k := by
  simp [assocErase, List.filter_filter]

theorem hasTicker_get_or_create (db : MongoDB) (now : Int) (s : String) :
    (MongoDBManager.get_or_create_ticker_id db now s).hasTicker s = true := by
  unfold MongoDBManager.get_or_create_ticker_id
  by_cases h : db.hasTicker s
  · simp only [h, if_true]
    unfold MongoDB.hasTicker at h ⊢
    simp only [List.any_map, List.any_eq_true, Function.comp] at h ⊢
    obtain ⟨t, ht, hs⟩ := h
    rw [decide_eq_true_eq] at hs
    exact ⟨t, ht, by simp [hs]⟩
  · simp only [h, if_false]
    unfold MongoDB.hasTicker
    simp

theorem mem_get_data_type_id (db : MongoDB) (c i : String) :
    (c, i) ∈ (MongoDBManager.get_data_type_id db c i).dataTypes := by
  unfold MongoDBManager.get_data_type_id
  by_cases h : (c, i) ∈ db.dataTypes
  · simp [h]
  · simp [h]

theorem tickers_get_data_type_id (db : MongoDB) (c i : String) :
    (MongoDBManager.get_data_type_id db c i).tickers = db.tickers := by
  unfold MongoDBManager.get_data_type_id
  by_cases h : (c, i) ∈ db.dataTypes <;> simp [h]

theorem docs_get_or_create (db : MongoDB) (now : Int) (s : String) :
    (MongoDBManager.get_or_create_ticker_id db now s).docs = db.docs := by
  unfold MongoDBManager.get_or_create_ticker_id
  by_cases h : db.hasTicker s <;> simp [h]

theorem docs_get_data_type_id (db : MongoDB) (c i : String) :
    (MongoDBManager.get_data_type_id db c i).docs = db.docs := by
  unfold MongoDBManager.get_data_type_id
  by_cases h : (c, i) ∈ db.dataTypes <;> simp [h]

/-- C4 (counterexample): a stored payload that fails to deserialize is NOT
distinguishable from an absent key — on both backends, `get_stored_data`
catches the deserialization exception and returns `None`, exactly the result
for a key that was never stored. -/
theorem c4_counterexample :
    DatabaseManager.get_stored_data dbCorrupt "AAPL" "Historical Data" "Dividends" = none
    ∧ DatabaseManager.get_stored_data SqliteDB.empty "AAPL" "Historical Data" "Dividends" = none
    ∧ MongoDBManager.get_stored_data mdbCorrupt "AAPL" "Historical Data" "Dividends" = none
    ∧ MongoDBManager.get_stored_data MongoDB.empty "AAPL" "Historical Data" "Dividends" = none := by
  decide

/-- C4 (amended): `get_stored_data` returns the deserialized stored dataset with
the metadata fields reattached (SQLite re-attaches `data_timestamp`/`source`
only when the stored value is truthy, keeping the pickled attrs otherwise;
MongoDB attaches all three unconditionally), and returns `None` for a key that
was never stored; but a stored payload that fails to deserialize also yields
`None` — deserialization failure is indistinguishable from absence on both
backends. -/
theorem c4_get_amended (db : SqliteDB) (mdb : MongoDB) (sym cat it : String) :
    (assocFind db.rows (sym, cat, it) = none →
      DatabaseManager.get_stored_data db sym cat it = none)
    ∧ (∀ row, assocFind db.rows (sym, cat, it) = some row → row.blob.unpickle = none →
      DatabaseManager.get_stored_data db sym cat it = none)
    ∧ (∀ row d, assocFind db.rows (sym, cat, it) = some row → row.blob = .pickled (.df d) →
      DatabaseManager.get_stored_data db sym cat it = some (.df
        { d with
          attrsFetchTimestamp := some row.fetchTs
          attrsDataTimestamp :=
            match row.dataTs with
            | some v => if v.truthy then some v else d.attrsDataTimestamp
            | none => d.attrsDataTimestamp
          attrsSource :=
            match row.source with
            | some s => if s ≠ "" then some s else d.attrsSource
            | none => d.attrsSource }))
    ∧ (assocFind mdb.docs (sym, cat, it) = none →
      MongoDBManager.get_stored_data mdb sym cat it = none)
    ∧ (∀ doc, assocFind mdb.docs (sym, cat, it) = some doc → doc.dataJson.decode = none →
      MongoDBManager.get_stored_data mdb sym cat it = none)
    ∧ (∀ doc d, assocFind mdb.docs (sym, cat, it) = some doc → doc.dataJson = .table d →
      mdb.hasTicker sym = true → (cat, it) ∈ mdb.dataTypes →
      MongoDBManager.get_stored_data mdb sym cat it = some
        { d with
          attrsFetchTimestamp := some doc.fetchTs
          attrsDataTimestamp := doc.dataTs
          attrsSource := doc.source }) := by
  refine ⟨?_, ?_, ?_, ?_, ?_, ?_⟩
  · intro h
    unfold DatabaseManager.get_stored_data
    rw [h]
  · intro row hf hu
    unfold DatabaseManager.get_stored_data
    rw [hf]
    dsimp only
    rw [hu]
  · intro row d hf hb
    unfold DatabaseManager.get_stored_data
    rw [hf]
    dsimp only
    rw [hb]
    rfl
  · intro h
    unfold MongoDBManager.get_stored_data
    by_cases ht : mdb.hasTicker sym
    · by_cases hm : (cat, it) ∈ mdb.dataTypes
      · simp [ht, hm, h]
      · simp [ht, hm]
    · simp [ht]
  · intro doc hf hd
    unfold MongoDBManager.get_stored_data
    by_cases ht : mdb.hasTicker sym
    · by_cases hm : (cat, it) ∈ mdb.dataTypes
      · simp [ht, hm, hf, hd]
      · simp [ht, hm]
    · simp [ht]
  · intro doc d hf hj ht hm
    unfold MongoDBManager.get_stored_data
    simp [ht, hm, hf, hj, MJson.decode]

/-- C4 (witness): the amended theorem applied to the corrupt-blob state and the
empty state — both reads return `None`. -/
theorem c4_get_amended_witness :
    DatabaseManager.get_stored_data dbCorrupt "AAPL" "Historical Data" "Dividends" = none
    ∧ DatabaseManager.get_stored_data SqliteDB.empty "X" "Y" "Z" = none :=
  ⟨(c4_get_amended dbCorrupt MongoDB.empty "AAPL" "Historical Data" "Dividends").2.1
      ⟨.corrupt "bad", .time 0, none, none⟩ (by decide) (by decide),
   (c4_get_amended SqliteDB.empty MongoDB.empty "X" "Y" "Z").1 (by decide)⟩

/-- C5 (counterexample): on the MongoDB backend deleting the same key twice
does NOT return success both times — the second call returns `False`
(`deleted_count > 0` fails once the document is gone), refuting the claim that
both backends return `True` on the repeated delete. -/
theorem c5_counterexample :
    (MongoDBManager.delete_data mdbOne "AAPL" "Historical Data" "Dividends").2 = true
    ∧ (MongoDBManager.delete_data
        (MongoDBManager.delete_data mdbOne "AAPL" "Historical Data" "Dividends").1
        "AAPL" "Historical Data" "Dividends").2 = false := by
  decide

/-- C5 (amended): delete is state-idempotent on both backends (the state after
the second delete equals the state after the first), and the SQLite backend
returns `True` both times; but the MongoDB backend reports `deleted_count > 0`,
so its second delete on the now-absent key always returns `False`. -/
theorem c5_delete_amended (db : SqliteDB) (mdb : MongoDB) (t c i : String) :
    (DatabaseManager.delete_data db t c i).2 = true
    ∧ (DatabaseManager.delete_data (DatabaseManager.delete_data db t c i).1 t c i).2 = true
    ∧ (DatabaseManager.delete_data (DatabaseManager.delete_data db t c i).1 t c i).1
        = (DatabaseManager.delete_data db t c i).1
    ∧ (MongoDBManager.delete_data (MongoDBManager.delete_data mdb t c i).1 t c i).1
        = (MongoDBManager.delete_data mdb t c i).1
    ∧ (MongoDBManager.delete_data (MongoDBManager.delete_data mdb t c i).1 t c i).2 = false := by
  refine ⟨rfl, rfl, ?_, ?_, ?_⟩
  · simp only [DatabaseManager.delete_data]
    rw [assocErase_idem]
  · obtain ⟨tk, dtys, docs⟩ := mdb
    by_cases ht : tk.any (fun td => td.symbol = t)
    · by_cases hm : (c, i) ∈ dtys
      · simp [MongoDBManager.delete_data, MongoDB.hasTicker, ht, hm, assocErase_idem]
      · simp [MongoDBManager.delete_data, MongoDB.hasTicker, ht, hm]
    · simp [MongoDBManager.delete_data, MongoDB.hasTicker, ht]
  · obtain ⟨tk, dtys, docs⟩ := mdb
    by_cases ht : tk.any (fun td => td.symbol = t)
    · by_cases hm : (c, i) ∈ dtys
      · simp [MongoDBManager.delete_data, MongoDB.hasTicker, ht, hm, assocFind_erase_self]
      · simp [MongoDBManager.delete_data, MongoDB.hasTicker, ht, hm]
    · simp [MongoDBManager.delete_data, MongoDB.hasTicker, ht]

/-- C10 (counterexample): the claimed put-interface divergence does not exist —
for a non-DataFrame payload BOTH backends return `False`, and
`DatabaseManager.store_data` pickles and stores nothing (its INSERT runs on a
cursor its helper calls have already closed), so SQLite does not "accept"
the payload either. -/
theorem c10_counterexample :
    (DatabaseManager.store_data SqliteDB.empty 0 "AAPL" "General Information" "Basic Info"
        (.other "dict") none none).2 = false
    ∧ (DatabaseManager.store_data SqliteDB.empty 0 "AAPL" "General Information" "Basic Info"
        (.other "dict") none none).1.rows = []
    ∧ (MongoDBManager.store_data MongoDB.empty 0 "AAPL" "General Information" "Basic Info"
        (.other "dict") none none).2 = false := by
  refine ⟨by decide, by decide, by decide⟩

/-- C10 (amended): for a non-DataFrame payload `MongoDBManager.store_data`
returns `False` with its state fully unchanged (the `isinstance` guard fires
before any write), and `DatabaseManager.store_data` likewise returns `False`
for every payload — DataFrames included — writing no `stock_data` row (its
cursor is closed by its helper calls before the INSERT); the residual
divergence is a side effect only: the SQLite path persists the ticker-registry
entry committed inside `get_or_create_ticker_id` before failing, while MongoDB
touches nothing. -/
theorem c10_store_amended (db : SqliteDB) (mdb : MongoDB) (now : Int)
    (t c i tag : String) (p : Payload) (dt : Option TStamp) (src : Option String) :
    MongoDBManager.store_data mdb now t c i (.other tag) dt src = (mdb, false)
    ∧ (DatabaseManager.store_data db now t c i p dt src).2 = false
    ∧ (DatabaseManager.store_data db now t c i p dt src).1.rows = db.rows
    ∧ t ∈ (DatabaseManager.store_data db now t c i p dt src).1.tickers := by
  refine ⟨rfl, rfl, rfl, ?_⟩
  by_cases h : t ∈ db.tickers
  · simp [DatabaseManager.store_data, h]
  · simp [DatabaseManager.store_data, h]

/-- C7: the freshness decision of `data_exists` (when the key is not in the
session cache and the fetcher has a database): for a stored entry with a
parsable `fetch_timestamp` it equals `now - fetch_timestamp <= max_age`
(denominator-cleared, `max_age_hours * 3600000000` microseconds); the boundary
entry `fetch_timestamp = now - T` is fresh, `now - T - ε` is stale for every
`ε > 0`; an unparsable `fetch_timestamp` is judged stale without raising; as is
a key with no stored entry. -/
theorem c7_freshness (f : Fetcher) (db : SqliteDB) (now T : Int) (sym cat it : String)
    (hc : StockDataFetcher.cacheKey sym cat it ∉ f.sessionCache)
    (hdb : f.db = some db) :
    (assocFind db.rows (sym, cat, it) = none →
      StockDataFetcher.data_exists f now sym cat it T = false)
    ∧ (∀ row t, assocFind db.rows (sym, cat, it) = some row → row.fetchTs = .time t →
      StockDataFetcher.data_exists f now sym cat it T
        = decide (now - t ≤ T * 3600000000))
    ∧ (∀ row, assocFind db.rows (sym, cat, it) = some row →
      row.fetchTs = .time (now - T * 3600000000) →
      StockDataFetcher.data_exists f now sym cat it T = true)
    ∧ (∀ row ε, 0 < ε → assocFind db.rows (sym, cat, it) = some row →
      row.fetchTs = .time (now - T * 3600000000 - ε) →
      StockDataFetcher.data_exists f now sym cat it T = false)
    ∧ (∀ row s, assocFind db.rows (sym, cat, it) = some row → row.fetchTs = .raw s →
      StockDataFetcher.data_exists f now sym cat it T = false) := by
  refine ⟨?_, ?_, ?_, ?_, ?_⟩
  · intro h
    simp [StockDataFetcher.data_exists, hc, hdb, h]
  · intro row t hf hts
    simp [StockDataFetcher.data_exists, hc, hdb, hf, hts]
  · intro row hf hts
    simp [StockDataFetcher.data_exists, hc, hdb, hf, hts]
  · intro row ε hε hf hts
    simp [StockDataFetcher.data_exists, hc, hdb, hf, hts]
    omega
  · intro row s hf hts
    simp [StockDataFetcher.data_exists, hc, hdb, hf, hts]

/-- C7 (witness): the freshness theorem applied to a concrete fetcher:
with `T = 2` hours and `now = 10^10`µs, a row fetched exactly `2` hours earlier
is fresh, one `1`µs older is stale, and an unparsable row is stale. -/
theorem c7_freshness_witness :
    StockDataFetcher.data_exists
      ⟨some ⟨[(("A", "B", "C"), ⟨.pickled (.df newsDS), .time (10000000000 - 7200000000), none, none⟩)], ["A"]⟩, []⟩
      10000000000 "A" "B" "C" 2 = true
    ∧ StockDataFetcher.data_exists
      ⟨some ⟨[(("A", "B", "C"), ⟨.pickled (.df newsDS), .time (10000000000 - 7200000001), none, none⟩)], ["A"]⟩, []⟩
      10000000000 "A" "B" "C" 2 = false
    ∧ StockDataFetcher.data_exists
      ⟨some ⟨[(("A", "B", "C"), ⟨.pickled (.df newsDS), .raw "not a date", none, none⟩)], ["A"]⟩, []⟩
      10000000000 "A" "B" "C" 2 = false :=
  ⟨(c7_freshness _ _ 10000000000 2 "A" "B" "C" (by decide) rfl).2.2.1
      ⟨.pickled (.df newsDS), .time (10000000000 - 7200000000), none, none⟩ (by decide) (by decide),
   (c7_freshness _ _ 10000000000 2 "A" "B" "C" (by decide) rfl).2.2.2.1
      ⟨.pickled (.df newsDS), .time (10000000000 - 7200000001), none, none⟩ 1 (by decide)
      (by decide) (by decide),
   (c7_freshness _ _ 10000000000 2 "A" "B" "C" (by decide) rfl).2.2.2.2
      ⟨.pickled (.df newsDS), .raw "not a date", none, none⟩ "not a date" (by decide) (by decide)⟩

/-- C9: once a key's session-cache string is recorded in
`_fetched_data_cache`, `data_exists` returns `True` by the first check alone —
for every database state (including `None`) and every `max_age_hours`, so the
age limit and the stored timestamps have no effect. -/
theorem c9_session_cache (cache : List String) (sym cat it : String)
    (h : StockDataFetcher.cacheKey sym cat it ∈ cache) :
    ∀ (db : Option SqliteDB) (now max_age_hours : Int),
      StockDataFetcher.data_exists ⟨db, cache⟩ now sym cat it max_age_hours = true := by
  intro db now T
  simp [StockDataFetcher.data_exists, h]

/-- C9 (witness): the session-cache theorem applied to a concrete fetcher whose
database would have judged the entry hopelessly stale (`max_age_hours = 0`,
entry a year old) and to the no-database fetcher. -/
theorem c9_session_cache_witness :
    StockDataFetcher.data_exists
      ⟨some ⟨[(("A", "B", "C"), ⟨.pickled (.df newsDS), .time 0, none, none⟩)], ["A"]⟩, ["A_B_C"]⟩
      31536000000000 "A" "B" "C" 0 = true
    ∧ StockDataFetcher.data_exists ⟨none, ["A_B_C"]⟩ 0 "A" "B" "C" 0 = true :=
  ⟨c9_session_cache ["A_B_C"] "A" "B" "C" (by decide)
      (some ⟨[(("A", "B", "C"), ⟨.pickled (.df newsDS), .time 0, none, none⟩)], ["A"]⟩)
      31536000000000 0,
   c9_session_cache ["A_B_C"] "A" "B" "C" (by decide) none 0 0⟩

/-- C8 (counterexample): the MongoDB catalog is NOT sorted — after storing
symbol "B" and then symbol "A", `get_available_data` returns the documents in
insertion order `["B", "A"]` (the aggregation pipeline has no `$sort` stage),
and its entries are 4-tuples without `data_timestamp`/`source`. -/
theorem c8_counterexample :
    (MongoDBManager.get_available_data mdbBA).map (fun r => r.1) = ["B", "A"]
    ∧ ¬ List.Sorted (fun a b : String × String × String × TStamp => a.1 ≤ b.1)
        (MongoDBManager.get_available_data mdbBA) := by
  constructor
  · decide
  · intro h
    have hBA : ("B" : String) ≤ "A" := by
      have hm : ("A", "Historical Data", "Dividends", TStamp.time 11)
          ∈ (MongoDBManager.get_available_data mdbBA).tail := by decide
      have hd : MongoDBManager.get_available_data mdbBA
          = ("B", "Historical Data", "Dividends", TStamp.time 10)
            :: (MongoDBManager.get_available_data mdbBA).tail := by decide
      rw [hd] at h
      exact (List.sorted_cons.mp h).1 _ hm
    refine absurd hBA ?_
    simp only [String.le_iff_toList_le, String.toList]
    decide

/-- C8 (amended): `DatabaseManager.get_available_data` returns the stored
`(symbol, category, info_type, fetch_timestamp, data_timestamp, source)`
entries sorted ascending by symbol, then category, then info_type (the SQL
`ORDER BY`); `MongoDBManager.get_available_data` instead returns 4-tuples
`(symbol, category, info_type, fetch_timestamp)` in document insertion order
with no sorting applied — storing two distinct symbols in either order yields
the catalog in exactly that store order. -/
theorem c8_catalog_amended :
    (∀ db : SqliteDB, List.Sorted catalogLe (DatabaseManager.get_available_data db))
    ∧ (∀ (n1 n2 : Int) (s1 s2 c i : String), s1 ≠ s2 →
        MongoDBManager.get_available_data
          ((MongoDBManager.store_data
            ((MongoDBManager.store_data MongoDB.empty n1 s1 c i (.df dfX) none none).1)
            n2 s2 c i (.df dfX) none none).1)
        = [(s1, c, i, .time n1), (s2, c, i, .time n2)]) := by
  constructor
  · intro db
    exact List.sorted_insertionSort catalogLe _
  · intro n1 n2 s1 s2 c i hss
    simp [MongoDBManager.store_data, MongoDBManager.get_or_create_ticker_id,
      MongoDBManager.get_data_type_id, MongoDB.hasTicker, MongoDB.empty,
      MongoDBManager.get_available_data, jsonTableEncode, jsonColumn, jsonCell, dfX,
      assocUpsert, assocFind, hss, Ne.symm hss, Prod.mk.injEq]

/-- C8 (witness): the amended theorem applied with symbols stored in
descending order — the MongoDB catalog keeps the store order. -/
theorem c8_catalog_amended_witness :
    MongoDBManager.get_available_data
      ((MongoDBManager.store_data
        ((MongoDBManager.store_data MongoDB.empty 10 "B" "Historical Data" "Dividends"
          (.df dfX) none none).1)
        11 "A" "Historical Data" "Dividends" (.df dfX) none none).1)
    = [("B", "Historical Data", "Dividends", .time 10),
       ("A", "Historical Data", "Dividends", .time 11)] :=
  c8_catalog_amended.2 10 11 "B" "A" "Historical Data" "Dividends" (by decide)

/-- C1 (counterexample): get after put does not yield the stored dataset on
either backend, each failing differently.  On SQLite, `store_data`'s cursor
has been closed by its own helper calls, so the put returns `False`, writes no
row, and the subsequent get reports absence.  On MongoDB the put succeeds, but
a dataset holding a timestamp cell of 1500µs comes back with 1000µs (the JSON
`table` encoding emits ISO strings at the default millisecond `date_unit`), so
the retrieved content differs from what was stored. -/
theorem c1_counterexample :
    (DatabaseManager.store_data SqliteDB.empty 77 "AAPL" "Historical Data" "Dividends"
        (.df dsMicro) none none).2 = false
    ∧ DatabaseManager.get_stored_data
        ((DatabaseManager.store_data SqliteDB.empty 77 "AAPL" "Historical Data" "Dividends"
          (.df dsMicro) none none).1) "AAPL" "Historical Data" "Dividends" = none
    ∧ MongoDBManager.get_stored_data
        ((MongoDBManager.store_data MongoDB.empty 77 "AAPL" "Historical Data" "Dividends"
          (.df dsMicro) none none).1) "AAPL" "Historical Data" "Dividends"
      = some ⟨[⟨"Date", [.ts 1000]⟩], some (.time 77), none, none⟩
    ∧ (⟨[⟨"Date", [.ts 1000]⟩], some (.time 77), none, none⟩ : Dataset).columns
        ≠ dsMicro.columns := by
  refine ⟨by decide, by decide, by decide, by decide⟩

/-- A map whose function fixes every member of the list is the identity on it. -/
theorem list_map_self {α : Type} (f : α → α) :
    ∀ l : List α, (∀ x ∈ l, f x = x) → l.map f = l := by
  intro l h
  induction l with
  | nil => rfl
  | cons a t ih => simp [h a (by simp), ih (fun x hx => h x (by simp [hx]))]

/-- C1 (amended): the round-trip holds on neither backend as claimed, and the
two fail differently.  On SQLite, `put` never succeeds: `store_data` returns
`False` for every payload and metadata (its cursor is closed by its own helper
calls before the INSERT), leaves the `stock_data` rows untouched, and
therefore get-after-put returns exactly what get returned before the put —
absence, for a never-stored key.  On MongoDB (for unique column names) the put
succeeds and get returns metadata `(fetch = now, data_timestamp, source)`
exactly as passed, with content equal to D up to truncation of timestamp cells
to millisecond precision — exact precisely when every timestamp cell is
millisecond-aligned. -/
theorem c1_roundtrip_amended (db : SqliteDB) (mdb : MongoDB) (now : Int)
    (sym cat it : String) (d : Dataset) (p : Payload) (dtM : Option TStamp)
    (srcM : Option String)
    (hnd : (d.columns.map Column.name).Nodup) :
    (DatabaseManager.store_data db now sym cat it p dtM srcM).2 = false
    ∧ (DatabaseManager.store_data db now sym cat it p dtM srcM).1.rows = db.rows
    ∧ DatabaseManager.get_stored_data
        ((DatabaseManager.store_data db now sym cat it p dtM srcM).1) sym cat it
      = DatabaseManager.get_stored_data db sym cat it
    ∧ MongoDBManager.get_stored_data
        ((MongoDBManager.store_data mdb now sym cat it (.df d) dtM srcM).1) sym cat it
      = some ⟨d.columns.map jsonColumn, some (.time now), dtM, srcM⟩
    ∧ ((d.columns.all fun c => c.cells.all Cell.msAligned) = true →
        d.columns.map jsonColumn = d.columns) := by
  refine ⟨rfl, rfl, rfl, ?_, ?_⟩
  · unfold MongoDBManager.store_data
    simp only [hnd, if_true]
    unfold MongoDBManager.get_stored_data
    have ht2 : ∀ docs',
        MongoDB.hasTicker
          { MongoDBManager.get_data_type_id
              (MongoDBManager.get_or_create_ticker_id mdb now sym) cat it with docs := docs' }
          sym = true := by
      intro docs'
      have h1 := hasTicker_get_or_create mdb now sym
      have h2 := tickers_get_data_type_id (MongoDBManager.get_or_create_ticker_id mdb now sym) cat it
      unfold MongoDB.hasTicker at h1 ⊢
      rw [show ({ MongoDBManager.get_data_type_id
          (MongoDBManager.get_or_create_ticker_id mdb now sym) cat it with docs := docs' }
            : MongoDB).tickers
          = (MongoDBManager.get_data_type_id
              (MongoDBManager.get_or_create_ticker_id mdb now sym) cat it).tickers from rfl, h2]
      exact h1
    have hm2 : ∀ docs',
        (cat, it) ∈ ({ MongoDBManager.get_data_type_id
            (MongoDBManager.get_or_create_ticker_id mdb now sym) cat it with docs := docs' }
              : MongoDB).dataTypes :=
      fun _ => mem_get_data_type_id (MongoDBManager.get_or_create_ticker_id mdb now sym) cat it
    rw [if_pos (ht2 _), if_pos (hm2 _)]
    rw [show ({ MongoDBManager.get_data_type_id
        (MongoDBManager.get_or_create_ticker_id mdb now sym) cat it with
          docs := assocUpsert (MongoDBManager.get_data_type_id
            (MongoDBManager.get_or_create_ticker_id mdb now sym) cat it).docs (sym, cat, it)
            ⟨.table (jsonTableEncode d), .time now, dtM, srcM⟩ } : MongoDB).docs
        = assocUpsert (MongoDBManager.get_data_type_id
            (MongoDBManager.get_or_create_ticker_id mdb now sym) cat it).docs (sym, cat, it)
            ⟨.table (jsonTableEncode d), .time now, dtM, srcM⟩ from rfl]
    rw [assocFind_upsert_self]
    dsimp only [MJson.decode, jsonTableEncode]
  · intro hall
    have : ∀ c : Column, (c.cells.all Cell.msAligned) = true → jsonColumn c = c := by
      intro c hcells
      unfold jsonColumn
      have : c.cells.map jsonCell = c.cells := by
        rw [List.all_eq_true] at hcells
        refine list_map_self _ _ ?_
        intro x hx
        have hx2 := hcells x hx
        cases x with
        | ts m =>
            have : m % 1000 = 0 := by simpa [Cell.msAligned] using hx2
            simp [jsonCell, Nat.div_mul_cancel (Nat.dvd_of_mod_eq_zero this)]
        | int i => rfl
        | str s => rfl
        | null => rfl
      cases c
      simp [this]
    rw [List.all_eq_true] at hall
    refine list_map_self _ _ ?_
    intro c hc
    exact this c (hall c hc)

/-- C1 (witness): the amended round-trip at a concrete dataset — the SQLite
put leaves the read unchanged (absence on the empty database) while the
MongoDB put round-trips the millisecond-aligned dataset with its metadata. -/
theorem c1_roundtrip_amended_witness :
    DatabaseManager.get_stored_data
      ((DatabaseManager.store_data SqliteDB.empty 42 "AAPL" "Historical Data" "Dividends"
        (.df ⟨[⟨"Date", [.ts 2000]⟩], none, none, none⟩) (some (.time 5)) (some "Yahoo Finance")).1)
      "AAPL" "Historical Data" "Dividends"
      = DatabaseManager.get_stored_data SqliteDB.empty "AAPL" "Historical Data" "Dividends"
    ∧ MongoDBManager.get_stored_data
        ((MongoDBManager.store_data MongoDB.empty 42 "AAPL" "Historical Data" "Dividends"
          (.df ⟨[⟨"Date", [.ts 2000]⟩], none, none, none⟩) (some (.time 5)) (some "Yahoo Finance")).1)
        "AAPL" "Historical Data" "Dividends"
      = some ⟨([⟨"Date", [.ts 2000]⟩] : List Column).map jsonColumn,
          some (.time 42), some (.time 5), some "Yahoo Finance"⟩ := by
  have h := c1_roundtrip_amended SqliteDB.empty MongoDB.empty 42 "AAPL" "Historical Data"
    "Dividends" ⟨[⟨"Date", [.ts 2000]⟩], none, none, none⟩
    (.df ⟨[⟨"Date", [.ts 2000]⟩], none, none, none⟩) (some (.time 5))
    (some "Yahoo Finance") (by decide)
  exact ⟨h.2.2.1, h.2.2.2.1⟩

/-- C2 (counterexample): a zero-row adapter result on the batch path is NOT
stored and NOT retrievable — running the batch over the taxonomy with an
adapter that returns an empty DataFrame for `(AAPL, Historical Data,
Dividends)` (and raises elsewhere) leaves the database unchanged (so `get`
still reports absence for the key) and produces no callback at all for that
key: the empty result is silently skipped rather than stored. -/
theorem c2_counterexample :
    (StockDataFetcher.batch_process_tickers Heur.trivialH adEmptyDividends 100000
        ⟨some SqliteDB.empty, []⟩ ["AAPL"] false).1.db = some SqliteDB.empty
    ∧ DatabaseManager.get_stored_data SqliteDB.empty "AAPL" "Historical Data" "Dividends" = none
    ∧ (StockDataFetcher.batch_process_tickers Heur.trivialH adEmptyDividends 100000
        ⟨some SqliteDB.empty, []⟩ ["AAPL"] false).2.2.filter
        (fun e => e.infoType == "Dividends") = []
    ∧ (⟨"AAPL", "General Information", "Basic Info", false, false, some "boom"⟩
        : StockDataFetcher.CallbackEvent)
      ∈ (StockDataFetcher.batch_process_tickers Heur.trivialH adEmptyDividends 100000
        ⟨some SqliteDB.empty, []⟩ ["AAPL"] false).2.2 := by
  refine ⟨by decide, by decide, by decide, by decide⟩

/-- C2 (amended): on the batch path (the body of the per-info-type loop of
`batch_process_tickers`), when nothing is served from cache, a zero-row
adapter result is neither stored nor reported — the fetcher state is unchanged
and no callback fires — while an adapter error likewise stores nothing but IS
reported as a failure callback; the two outcomes remain distinct, but the
empty dataset is not stored or retrievable. -/
theorem c2_empty_vs_failure_amended (hx : Heur) (adapter : Adapter) (now : Int)
    (f : Fetcher) (sym cat it : String)
    (hne : StockDataFetcher.data_exists f now sym cat it 24 = false) :
    (∀ d, adapter sym cat it = .ok d → d.isEmpty = true →
      StockDataFetcher.batchStep hx adapter now false f sym cat it = (f, none, []))
    ∧ (∀ e, adapter sym cat it = .error e →
      StockDataFetcher.batchStep hx adapter now false f sym cat it
        = (f, none, [⟨sym, cat, it, false, false, some e⟩])) := by
  constructor
  · intro d had hde
    simp [StockDataFetcher.batchStep, StockDataFetcher.get_data, StockDataFetcher.fetchFresh,
      hne, had, hde]
  · intro e had
    simp [StockDataFetcher.batchStep, StockDataFetcher.get_data, StockDataFetcher.fetchFresh,
      hne, had]

/-- C2 (witness): the amended theorem applied to a fresh fetcher with an empty
database: the empty Dividends result leaves everything unchanged with no
callback, and the erroring adapter produces exactly one failure callback. -/
theorem c2_empty_vs_failure_amended_witness :
    StockDataFetcher.batchStep Heur.trivialH adEmptyDividends 100000 false
      ⟨some SqliteDB.empty, []⟩ "AAPL" "Historical Data" "Dividends"
      = (⟨some SqliteDB.empty, []⟩, none, [])
    ∧ StockDataFetcher.batchStep Heur.trivialH adErr 100000 false
      ⟨some SqliteDB.empty, []⟩ "AAPL" "Historical Data" "Dividends"
      = (⟨some SqliteDB.empty, []⟩, none,
         [⟨"AAPL", "Historical Data", "Dividends", false, false, some "net down"⟩]) :=
  ⟨(c2_empty_vs_failure_amended Heur.trivialH adEmptyDividends 100000
      ⟨some SqliteDB.empty, []⟩ "AAPL" "Historical Data" "Dividends" (by decide)).1
      ⟨[], none, none, none⟩ rfl (by decide),
   (c2_empty_vs_failure_amended Heur.trivialH adErr 100000
      ⟨some SqliteDB.empty, []⟩ "AAPL" "Historical Data" "Dividends" (by decide)).2
      "net down" rfl⟩

/-- C3 (counterexample): on the batch path News IS served from the stored
cache — with a freshly stored News entry and an adapter that raises on every
upstream call, `batch_process_tickers` returns the stored News dataset and
logs a successful from-cache callback for it, refuting "never returns the
cached stored copy ... on the batch path". -/
theorem c3_counterexample :
    (StockDataFetcher.batch_process_tickers Heur.trivialH adErr 100000
        ⟨some dbNews, []⟩ ["AAPL"] false).2.1
      = [("AAPL", [("General Information",
          [("News", ⟨[⟨"title", [.str "headline"]⟩], some (.time 99000), none, none⟩)])])]
    ∧ (⟨"AAPL", "General Information", "News", true, true, none⟩
        : StockDataFetcher.CallbackEvent)
      ∈ (StockDataFetcher.batch_process_tickers Heur.trivialH adErr 100000
          ⟨some dbNews, []⟩ ["AAPL"] false).2.2 := by
  refine ⟨by decide, by decide⟩

/-- C3 (amended): the always-refetch exception for News exists only on the
single-key path — `get_data` with `force_refresh = false` always takes the
upstream-fetch path for `info_type = "News"`, never the cache branch,
regardless of fetcher state; but the batch path's own cache check in
`batch_process_tickers` has no News exception: whenever `data_exists` holds
and the stored News entry is a non-empty DataFrame, the batch step returns the
stored copy with a from-cache callback and no upstream call. -/
theorem c3_news_amended :
    (∀ (hx : Heur) (adapter : Adapter) (now : Int) (f : Fetcher) (sym cat : String),
      StockDataFetcher.get_data hx adapter now f sym cat "News" false
        = (StockDataFetcher.fetchFresh hx adapter now sym cat "News", f))
    ∧ (∀ (hx : Heur) (adapter : Adapter) (now : Int) (f : Fetcher) (db : SqliteDB)
        (sym cat : String) (d : Dataset),
      f.db = some db →
      StockDataFetcher.data_exists f now sym cat "News" 24 = true →
      DatabaseManager.get_stored_data db sym cat "News" = some (.df d) →
      d.isEmpty = false →
      StockDataFetcher.batchStep hx adapter now false f sym cat "News"
        = (f, some d, [⟨sym, cat, "News", true, true, none⟩])) := by
  constructor
  · intro hx adapter now f sym cat
    simp [StockDataFetcher.get_data]
  · intro hx adapter now f db sym cat d hdb hde hget hne
    simp [StockDataFetcher.batchStep, hdb, hde, hget, hne]

/-- C3 (witness): the amended theorem at concrete inputs — `get_data` for News
ignores a fresh stored copy and calls the (failing) adapter, while the batch
step serves the stored News copy from cache. -/
theorem c3_news_amended_witness :
    StockDataFetcher.get_data Heur.trivialH adErr 100000 ⟨some dbNews, []⟩
      "AAPL" "General Information" "News" false
      = (StockDataFetcher.fetchFresh Heur.trivialH adErr 100000
          "AAPL" "General Information" "News", ⟨some dbNews, []⟩)
    ∧ StockDataFetcher.batchStep Heur.trivialH adErr 100000 false ⟨some dbNews, []⟩
        "AAPL" "General Information" "News"
      = (⟨some dbNews, []⟩,
         some ⟨[⟨"title", [.str "headline"]⟩], some (.time 99000), none, none⟩,
         [⟨"AAPL", "General Information", "News", true, true, none⟩]) :=
  ⟨c3_news_amended.1 Heur.trivialH adErr 100000 ⟨some dbNews, []⟩ "AAPL" "General Information",
   c3_news_amended.2 Heur.trivialH adErr 100000 ⟨some dbNews, []⟩ dbNews
     "AAPL" "General Information"
     ⟨[⟨"title", [.str "headline"]⟩], some (.time 99000), none, none⟩
     rfl (by decide) (by decide) (by decide)⟩

/-- C6 (counterexample): a symbol with zero successful fetches does NOT appear
in the batch result — with an adapter raising on every call, the single symbol
is processed (22 failure callbacks fire) yet the aggregated result is empty
rather than containing `AAPL` mapped to an empty map. -/
theorem c6_counterexample :
    (StockDataFetcher.batch_process_tickers Heur.trivialH adErr 100000
        ⟨some SqliteDB.empty, []⟩ ["AAPL"] false).2.1 = []
    ∧ (StockDataFetcher.batch_process_tickers Heur.trivialH adErr 100000
        ⟨some SqliteDB.empty, []⟩ ["AAPL"] false).2.2.length = 22 := by
  refine ⟨by decide, by decide⟩

/-- Entries produced by the ticker loop never carry an empty per-symbol map:
`if ticker_data: results[ticker] = ticker_data` filters them out. -/
theorem processTickers_entries (hx : Heur) (adapter : Adapter) (now : Int)
    (force : Bool) (tax : List (String × List String)) :
    ∀ (ts : List String) (f : Fetcher)
      (p : String × List (String × List (String × Dataset))),
      p ∈ (StockDataFetcher.processTickers hx adapter now force tax f ts).2.1 → p.2 ≠ [] := by
  intro ts
  induction ts with
  | nil =>
      intro f p hp
      simp [StockDataFetcher.processTickers] at hp
  | cons s rest ih =>
      intro f p hp
      rcases hC : StockDataFetcher.processCategories hx adapter now force s f tax
        with ⟨f1, td, ev⟩
      rcases hT : StockDataFetcher.processTickers hx adapter now force tax f1 rest
        with ⟨f2, tail, evs⟩
      simp only [StockDataFetcher.processTickers, hC, hT] at hp
      rcases List.mem_append.mp hp with h1 | h2
      · by_cases he : td.isEmpty
        · simp [he] at h1
        · simp only [he, Bool.false_eq_true, if_false, List.mem_singleton] at h1
          subst h1
          intro hnil
          exact he (by simp [show td = [] from hnil])
      · exact ih f1 p (by rw [hT]; exact h2)

/-- C6 (amended): the aggregated result of `batch_process_tickers` contains an
entry only for symbols with at least one successful fetch — every entry maps
to a NON-empty map, and a symbol with zero successes is omitted entirely
(distinguishing "nothing available" from "not processed" is not possible from
the result set). -/
theorem c6_results_amended (hx : Heur) (adapter : Adapter) (now : Int)
    (f : Fetcher) (tickers : List String) (force : Bool)
    (p : String × List (String × List (String × Dataset)))
    (hp : p ∈ (StockDataFetcher.batch_process_tickers hx adapter now f tickers force).2.1) :
    p.2 ≠ [] :=
  processTickers_entries hx adapter now force StockDataFetcher.batchCategories tickers f p hp

/-- C6 (witness): the amended theorem applied to a run with one successful
fetch — the symbol's entry is present and its map is non-empty. -/
theorem c6_results_amended_witness :
    (("AAPL",
      [("Historical Data",
        [("Price History",
          (⟨[⟨"Close", [.int 5]⟩], some (.time 100000), none, some "Yahoo Finance"⟩
            : Dataset))])])
     : String × List (String × List (String × Dataset))).2 ≠ [] :=
  c6_results_amended Heur.trivialH adOnePrice 100000 ⟨some SqliteDB.empty, []⟩
    ["AAPL"] false _ (by decide)
